import Mathlib

/-!
Shallow embedding of `scripts/conversion_script.py` (convert2rhel-worker-scripts).

External effects (filesystem reads, subprocess calls, downloads, environment
variables) are modelled by an `Env` record holding the outcome each external
call would produce during the run; the functions of the script are translated
over that record.  Python exceptions are modelled with `Except`/`Option`:
a `ProcessError` or generic exception raised inside the `try` body of `main`
is an `Exc` value, and an exception escaping the `finally` block (which kills
the process before the verdict JSON is printed) is `Option.none`.
-/

namespace ConversionScript

/-! ## Python string helpers -/

/-- Python whitespace characters (`str.split`, `str.strip`, regex `\s`). -/
def pyIsSpace (c : Char) : Bool :=
  c = ' ' || c = '\t' || c = '\n' || c = '\r' || c = Char.ofNat 11 || c = Char.ofNat 12

/-- Python `str.strip()`. -/
def pyStrip (s : String) : String :=
  ⟨((s.data.dropWhile pyIsSpace).reverse.dropWhile pyIsSpace).reverse⟩

/-- Split a character list at every separator character, keeping empty
pieces (the semantics of Python `str.split(sep)` with an explicit
separator). -/
def splitChars (p : Char → Bool) : List Char → List (List Char)
  | [] => [[]]
  | c :: t =>
    if p c then [] :: splitChars p t
    else
      match splitChars p t with
      | h :: r => (c :: h) :: r
      | [] => [[c]]

/-- Python `str.split("\n")`. -/
def splitNl (s : String) : List String :=
  (splitChars (· = '\n') s.data).map (fun l => ⟨l⟩)

/-- Python `str.split()` with no argument: split on whitespace runs, dropping
empty pieces. -/
def pySplitWs (s : String) : List String :=
  ((splitChars pyIsSpace s.data).map (fun l => (⟨l⟩ : String))).filter (fun t => t ≠ "")

/-- Python `"\n".join(lines)`. -/
def joinNl (lines : List String) : String :=
  ⟨List.intercalate ['\n'] (lines.map String.data)⟩

/-- ASCII lowercasing (Python `str.lower()`). -/
def pyLower (s : String) : String := ⟨s.data.map Char.toLower⟩

/-- Python `str.startswith(pre)`. -/
def pyStartswith (s pre : String) : Bool := pre.data.isPrefixOf s.data

/-- Python `str.rstrip("\n")`. -/
def pyRstripNl (s : String) : String :=
  ⟨(s.data.reverse.dropWhile (· = '\n')).reverse⟩

/-- Python `str.title()` (ASCII): uppercase a letter that does not follow a
letter, lowercase a letter that does. -/
def pyTitleGo : Bool → List Char → List Char
  | _, [] => []
  | prevAlpha, c :: cs =>
    let c' := if c.isAlpha then (if prevAlpha then c.toLower else c.toUpper) else c
    c' :: pyTitleGo c.isAlpha cs

/-- Python `str.title()`. -/
def pyTitle (s : String) : String := ⟨pyTitleGo false s.data⟩

/-- Substring test on character lists (Python `in` on strings). -/
def subIn (needle : List Char) : List Char → Bool
  | [] => needle.isEmpty
  | c :: t => needle.isPrefixOf (c :: t) || subIn needle t

/-- Python `needle in hay` for strings. -/
def strContains (hay needle : String) : Bool := subIn needle.data hay.data

/-- Python `"%s" % v` for a value that may be `None`. -/
def fmtOpt : Option String → String
  | none => "None"
  | some s => s

/-! ## Severity tiers (`STATUS_CODE`) -/

/-- The `STATUS_CODE` mapping of the script (tier name to numeric rank). -/
def STATUS_CODE : List (String × Nat) :=
  [("SUCCESS", 0), ("INFO", 25), ("WARNING", 51), ("SKIP", 101),
   ("OVERRIDABLE", 152), ("ERROR", 202)]

/-- Python `level in STATUS_CODE` (dict key membership). -/
def isKnownLevel (l : String) : Bool := STATUS_CODE.any (fun p => p.1 == l)

/-- Python `STATUS_CODE[status]`; total here, only ever applied to known
levels by the script (`find_highest_report_level` filters first). -/
def statusCode (s : String) : Nat :=
  (((STATUS_CODE.find? (fun p => p.1 == s)).map Prod.snd).getD 0)

/-! ## Report data model

A message/result record of the convert2rhel JSON report (`{actions: {id:
{result: {...}, messages: [...]}}}`).  The dict fields the script touches are
modelled as typed fields; `remediations`/`remediation`/`diagnosis` are
`Option` because the script pops them with a default. -/

structure RawMessage where
  id : String
  level : String
  description : String
  remediations : Option String
  remediation : Option String
  diagnosis : Option String
deriving DecidableEq, Repr

structure Action where
  result : RawMessage
  messages : List RawMessage
deriving DecidableEq, Repr

structure ContextEntry where
  context : String
deriving DecidableEq, Repr

structure DetailBlock where
  remediations : List ContextEntry
  diagnosis : List ContextEntry
deriving DecidableEq, Repr

/-- A flattened finding as produced by `apply_message_transform`. -/
structure Finding where
  key : String
  severity : String
  summary : String
  detail : DetailBlock
  modifiers : List String
deriving DecidableEq, Repr

/-! ## `find_highest_report_level` -/

/-- The `action_level_combined` list of `find_highest_report_level`: for each
action, its result level followed by its message levels, in order. -/
def action_levels : List (String × Action) → List String
  | [] => []
  | p :: rest =>
    (p.2.result.level :: p.2.messages.map (fun m => m.level)) ++ action_levels rest

/-- Stable insertion used to model Python's `list.sort(key=..., reverse=True)`
on the level names, descending by `statusCode`. -/
def insertLevelDesc (x : String) : List String → List String
  | [] => [x]
  | y :: ys =>
    if statusCode y < statusCode x then x :: y :: ys else y :: insertLevelDesc x ys

def sortLevelsDesc : List String → List String
  | [] => []
  | x :: xs => insertLevelDesc x (sortLevelsDesc xs)

/-- `find_highest_report_level`: collect result and message levels, keep the
known ones, sort descending by `STATUS_CODE`, take the first element.
`none` models the `IndexError` raised by `valid_action_levels[0]` when no
known level was collected. -/
def find_highest_report_level (actions : List (String × Action)) : Option String :=
  let action_level_combined := action_levels actions
  let valid_action_levels := action_level_combined.filter isKnownLevel
  (sortLevelsDesc valid_action_levels).head?

/-! ## Flattening (`apply_message_transform`, `transform_raw_data`) -/

/-- `_filter_message_level`: `none` models the falsy `{}` returned when the
level equals the filtered one. -/
def _filter_message_level (m : RawMessage) (level : String) : Option RawMessage :=
  if m.level != level then some m else none

/-- `apply_message_transform`: drop `SUCCESS` records, otherwise apply
`_generate_message_key`, the two `_rename_dictionary_key` calls,
`_generate_detail_block` and attach the empty `modifiers` list.
(The typed record keeps exactly the keys the downstream consumers read.) -/
def apply_message_transform (message : RawMessage) (action_id : String) : Option Finding :=
  match _filter_message_level message "SUCCESS" with
  | none => none
  | some m =>
    -- _generate_message_key: key = "<action_id>::<id>", id removed
    let key := action_id ++ "::" ++ m.id
    -- _rename_dictionary_key: severity <- level, summary <- description
    let severity := m.level
    let summary := m.description
    -- _generate_detail_block: pop "remediations" if present else "remediation",
    -- default ""; pop "diagnosis", default ""
    let remVal := match m.remediations with
      | some r => r
      | none => m.remediation.getD ""
    let detail : DetailBlock :=
      { remediations := [{ context := remVal }],
        diagnosis := [{ context := m.diagnosis.getD "" }] }
    some { key := key, severity := severity, summary := summary,
           detail := detail, modifiers := [] }

/-- The `new_data` list built by the loop of `transform_raw_data`: for each
action its transformed messages, then its transformed result. -/
def collect_new_data : List (String × Action) → List (Option Finding)
  | [] => []
  | p :: rest =>
    p.2.messages.map (fun m => apply_message_transform m p.1)
      ++ [apply_message_transform p.2.result p.1]
      ++ collect_new_data rest

/-- `transform_raw_data`: the loop above followed by the falsy-value filter. -/
def transform_raw_data (raw : List (String × Action)) : List Finding :=
  (collect_new_data raw).filterMap id

/-! ## `generate_report_message` -/

def CONVERSION_SUCCESS_MESSAGE : String :=
  "No problems found. The system was converted successfully. Please, reboot your system at your earliest convenience to make sure that the system is using the RHEL Kernel."

def CONVERSION_INHIBITED_MESSAGE : String :=
  "The conversion cannot proceed. You must resolve existing issues to perform the conversion."

/-- `generate_report_message`: message and alert from the highest status
(`STATUS_CODE[highest] <= STATUS_CODE["WARNING"]` vs `>`). -/
def generate_report_message (highest_status : String) : String × Bool :=
  if statusCode highest_status ≤ statusCode "WARNING" then
    (CONVERSION_SUCCESS_MESSAGE, false)
  else
    (CONVERSION_INHIBITED_MESSAGE, true)

/-! ## Rollback detector (`check_for_inhibitors_in_rollback`) -/

def ROLLBACK_MARKER : String := "WARNING - Abnormal exit! Performing rollback ..."

def REPORT_GENERATED_MARKER : String := "Pre-conversion analysis report"

/-- `DETECT_ERROR_IN_ROLLBACK_PATTERN.match(line)` on a single (newline-free)
line: case-insensitive containment of one of the error words. -/
def detectErrorInRollback (s : String) : Bool :=
  let l := pyLower s
  strContains l "error" || strContains l "fail" || strContains l "denied" ||
    strContains l "traceback" || strContains l "couldn't find a backup"

/-- Indices of the lines containing the report-generated marker (the list
comprehension computing `end_index` candidates). -/
def reportMarkerIdxs (lines : List String) : List Nat :=
  (lines.enum.filter (fun p => strContains p.2 REPORT_GENERATED_MARKER)).map Prod.fst

/-- `check_for_inhibitors_in_rollback`.  The argument is the content of the
convert2rhel log file as a list of raw lines (`none` when the file cannot be
read, which the function turns into an `IOError` caught inside it).
`Except.error ()` models the `IndexError` raised by `[...][0]` when no line
contains the report-generated marker: unlike the `ValueError` of
`lines.index`, it is NOT caught by the function. -/
def check_for_inhibitors_in_rollback (log : Option (List String)) : Except Unit String :=
  match log with
  | none => .ok ""  -- IOError branch: prints and returns the initial ""
  | some raws =>
    let lines := raws.map pyStrip
    match lines.findIdx? (· == ROLLBACK_MARKER) with
    | none => .ok ""  -- lines.index raised ValueError: caught, returns ""
    | some start_index =>
      match reportMarkerIdxs lines with
      | [] => .error ()  -- IndexError from [...][0]: not caught
      | end_index :: _ =>
        let actual_data := (lines.drop (start_index + 1)).take (end_index - (start_index + 1))
        .ok (joinNl (actual_data.filter detectErrorInRollback))

/-! ## Filesystem model, `_create_or_restore_backup_file`, `cleanup` -/

/-- Filesystem state: maps a path to the content of the file there. -/
def FS := String → Option String

/-- `os.rename(src, dst)`. -/
def fsRename (src dst : String) (fs : FS) : FS :=
  fun p => if p = dst then fs src else if p = src then none else fs p

/-- `os.remove(path)`. -/
def fsRemove (path : String) (fs : FS) : FS :=
  fun p => if p = path then none else fs p

/-- `RequiredFile` of the script. -/
structure RequiredFile where
  path : String
  host : String
  keep : Bool
deriving DecidableEq, Repr

/-- `_create_or_restore_backup_file`: restore `path + ".backup"` over `path`
if the backup exists, else back up `path` if it exists, else no-op. -/
def _create_or_restore_backup_file (path : String) (fs : FS) : FS :=
  if (fs (path ++ ".backup")).isSome then
    fsRename (path ++ ".backup") path fs
  else if (fs path).isSome then
    fsRename path (path ++ ".backup") fs
  else
    fs

/-- The per-file loop of `cleanup`: skip kept files; remove a still-present
downloaded file, then restore any backup. -/
def cleanupFiles (files : List RequiredFile) (fs : FS) : FS :=
  files.foldl
    (fun acc f =>
      if f.keep then acc
      else
        let acc1 := if (acc f.path).isSome then fsRemove f.path acc else acc
        _create_or_restore_backup_file f.path acc1)
    fs

/-- `cleanup`: the file loop, then the `yum history undo` loop over the
pending transactions.  A `none` element in the undo set makes
`" ".join(cmd)` inside `run_subprocess` raise a `TypeError` (uncaught:
`cleanup` runs in the `finally` block), modelled as `Option.none`; otherwise
the returned list is the sequence of transaction ids an undo was issued
for. -/
def cleanup (files : List RequiredFile) (undo : List (Option String)) (fs : FS) :
    Option (FS × List String) :=
  if undo.any (fun t => t.isNone) then none
  else some (cleanupFiles files fs, undo.filterMap id)

/-! ## Exceptions, output collector, verdict -/

/-- The two exception shapes `main` catches: `ProcessError` (message, report)
and the generic `except Exception` (stringified). -/
inductive Exc where
  | processError (message : String) (report : String)
  | unexpected (str : String)
deriving DecidableEq, Repr

structure OutputCollector where
  status : String := ""
  alert : Bool := false
  error : Bool := false
  message : String := ""
  report : String := ""
  entries : Option (List Finding) := none
deriving DecidableEq, Repr

/-- The nested `report_json` dictionary built by `OutputCollector.to_dict`. -/
structure ReportJson where
  tasks_format_version : String
  tasks_format_id : String
  entries : List Finding
deriving DecidableEq, Repr

/-- The JSON object `main` prints between the markers. -/
structure Verdict where
  status : String
  alert : Bool
  error : Bool
  message : String
  report : String
  report_json : Option ReportJson
deriving DecidableEq, Repr

/-- `OutputCollector.to_dict`: `report_json` is filled only when `entries`
is truthy (a non-empty list). -/
def OutputCollector.to_dict (o : OutputCollector) : Verdict :=
  { status := o.status, alert := o.alert, error := o.error, message := o.message,
    report := o.report,
    report_json := match o.entries with
      | some (f :: fs) =>
        some { tasks_format_version := "1.0", tasks_format_id := "oamg-format",
               entries := f :: fs }
      | _ => none }

/-! ## Report gathering -/

/-- State of `C2R_REPORT_FILE` as `json.load` sees it. -/
inductive ReportFileState where
  | missing        -- os.path.exists is False
  | unparseable    -- json.load raises ValueError
  | parsedEmpty    -- parses to a falsy value (`if not data`)
  | parsed (actions : List (String × Action))  -- truthy data with its actions mapping
deriving DecidableEq, Repr

/-- `gather_json_report`: `none` models the empty `{}` result. -/
def gather_json_report : ReportFileState → Option (List (String × Action))
  | .parsed actions => some actions
  | _ => none

/-! ## Environment of one run

Outcome of every external call `main` can make, fixed up front: parsed
distribution identity (the regex parsing of `/etc/system-release` is outside
the embedding, as §1 of the design puts detection heuristics out of scope),
subprocess outputs/exit codes, the convert2rhel log, environment variables
and report files. -/

structure Env where
  distroId : Option String
  versionId : Option String
  setupFails : Bool          -- a download/write in setup_convert2rhel raises
  customIniPath : String     -- expanduser("~/.convert2rhel.ini")
  customIniExists : Bool
  rpmVaOutput : String
  rpmVaRc : Nat
  c2rInstalled : Bool        -- rpm -q convert2rhel exited 0
  yumInstallOutput : String
  yumInstallRc : Nat
  yumUpdateOutput : String
  yumUpdateRc : Nat
  yumHistoryOutput : String
  yumHistoryRc : Nat
  convertOutput : String
  convertRc : Nat
  log : Option (List String) -- lines of C2R_LOG_FILE, none when unreadable
  paygVar : Option String    -- RHC_WORKER_CONVERT2RHEL_PAYG
  meteringInstallOutput : String
  meteringInstallRc : Nat
  meteringEnableOutput : String
  meteringEnableRc : Nat
  meteringStartOutput : String
  meteringStartRc : Nat
  insightsOutput : String
  insightsRc : Nat
  reportState : ReportFileState
  reportTxt : Option String  -- content of C2R_REPORT_TXT_FILE, none if absent
deriving DecidableEq, Repr

/-- `get_system_distro_version` (file read and regex parse abstracted into the
environment; `none` is Python's `None` when parsing or reading failed). -/
def get_system_distro_version (env : Env) : Option String × Option String :=
  (env.distroId, env.versionId)

/-- `is_eligible_releases`. -/
def is_eligible_releases (release : Option String) : Bool :=
  match release with
  | none => false
  | some r => r == "7.9"

/-- `gather_textual_report`: file content, or `""` when the file is absent. -/
def gather_textual_report (env : Env) : String :=
  env.reportTxt.getD ""

/-! ## Precondition check -/

/-- The per-line loop of `_check_ini_file_modified`.  An all-whitespace line
makes `line[0]` raise `IndexError` (propagating as a generic exception). -/
def checkIniLines : List String → Except Exc Bool
  | [] => .ok false
  | line :: rest =>
    match pySplitWs line with
    | [] => .error (.unexpected "list index out of range")
    | tok :: toks =>
      let status := tok.data.filter (fun c => c ≠ '.' && c ≠ '?')
      let path := toks.getLastD tok
      if path == "/etc/convert2rhel.ini" && status.contains '5' then .ok true
      else checkIniLines rest

/-- `_check_ini_file_modified`: `rpm -Va convert2rhel` exit 0 means no
modification; otherwise scan its output lines. -/
def _check_ini_file_modified (env : Env) : Except Exc Bool :=
  if env.rpmVaRc == 0 then .ok false
  else checkIniLines (splitNl (pyStrip env.rpmVaOutput))

/-- `check_convert2rhel_inhibitors_before_run`. -/
def check_convert2rhel_inhibitors_before_run (env : Env) : Except Exc Unit :=
  if env.customIniExists then
    .error (.processError ("Custom " ++ env.customIniPath ++ " was found.")
      ("Remove the " ++ env.customIniPath ++ " file by running 'rm -f " ++
        env.customIniPath ++ "' before running the Task again."))
  else
    match _check_ini_file_modified env with
    | .error e => .error e
    | .ok true =>
      .error (.processError
        "According to 'rpm -Va' command /etc/convert2rhel.ini was modified."
        "Either remove the /etc/convert2rhel.ini file by running 'rm -f /etc/convert2rhel.ini' or uninstall convert2rhel by running 'yum remove convert2rhel' before running the Task again.")
    | .ok false => .ok ()

/-! ## Transactional install -/

/-- One line matched against `LATEST_YUM_TRANSACTION_PATTERN`
(`^(\s+)?(\d+)`): optional leading whitespace then a digit run; the result is
the second capture group. -/
def lineTxMatch (line : String) : Option String :=
  let rest := line.data.dropWhile pyIsSpace
  let ds := rest.takeWhile Char.isDigit
  if ds.isEmpty then none else some ⟨ds⟩

/-- `_get_last_yum_transaction_id`: `None` on a non-zero `yum history list`
exit (only logged), else the last matched transaction id, `None` if none. -/
def _get_last_yum_transaction_id (env : Env) : Option String :=
  if env.yumHistoryRc != 0 then none
  else ((splitNl env.yumHistoryOutput).filterMap lineTxMatch).getLast?

/-- `install_convert2rhel`: fresh install when the package is absent
(returns `(true, best-effort transaction id)`), update when present
(returns `(false, none)`); non-zero yum exits raise `ProcessError`. -/
def install_convert2rhel (env : Env) : Except Exc (Bool × Option String) :=
  if !env.c2rInstalled then
    if env.yumInstallRc != 0 then
      .error (.processError "Failed to install convert2rhel RPM."
        ("Installing convert2rhel with yum exited with code '" ++
          toString env.yumInstallRc ++ "' and output:\n" ++ pyRstripNl env.yumInstallOutput))
    else
      .ok (true, _get_last_yum_transaction_id env)
  else
    if env.yumUpdateRc != 0 then
      .error (.processError "Failed to update convert2rhel RPM."
        ("Updating convert2rhel with yum exited with code '" ++
          toString env.yumUpdateRc ++ "' and output:\n" ++ pyRstripNl env.yumUpdateOutput))
    else
      .ok (false, none)

/-- Lines 688-690 of `main`: call the installer and register the returned
transaction id in the (initially empty) pending-undo set only when the
package was freshly installed. -/
def installStep (env : Env) : Except Exc ((Bool × Option String) × List (Option String)) :=
  match install_convert2rhel env with
  | .error e => .error e
  | .ok (installed, txid) => .ok ((installed, txid), if installed then [txid] else [])

/-! ## Execute and remediate -/

/-- `run_convert2rhel`: combined output and exit code of the tool. -/
def run_convert2rhel (env : Env) : String × Nat :=
  (env.convertOutput, env.convertRc)

def HOST_METERING_ERROR_MESSAGE : String :=
  "Conversion succeeded but host-metering configuration failed."

/-- `configure_host_metering`: skipped unless the payg variable is exactly
"yes"; each of install/enable/start raises `ProcessError` on failure. -/
def configure_host_metering (env : Env) : Except Exc Unit :=
  if env.paygVar.getD "no" != "yes" then .ok ()
  else if env.meteringInstallRc != 0 then
    .error (.processError HOST_METERING_ERROR_MESSAGE
      ("Failed to install host-metering rpms: \n" ++ env.meteringInstallOutput ++ "\n"))
  else if env.meteringEnableRc != 0 then
    .error (.processError HOST_METERING_ERROR_MESSAGE
      ("Failed to enable host-metering service: \n" ++ env.meteringEnableOutput ++ "\n"))
  else if env.meteringStartRc != 0 then
    .error (.processError HOST_METERING_ERROR_MESSAGE
      ("Failed to start host-metering service: \n" ++ env.meteringStartOutput ++ "\n"))
  else .ok ()

/-- `update_insights_inventory`. -/
def update_insights_inventory (env : Env) : Except Exc Unit :=
  if env.insightsRc != 0 then
    .error (.processError
      "Conversion succeeded but update of Insights Inventory by registering the system again failed."
      ("insights-client execution exited with code '" ++ toString env.insightsRc ++
        "' and output:\n" ++ pyRstripNl env.insightsOutput))
  else .ok ()

/-! ## The orchestrator (`main`) -/

/-- The local variables of `main` that the `finally` block reads, plus the
`keep` flags of the two `RequiredFile` objects and the global
`YUM_TRANSACTIONS_TO_UNDO` set (a list of the values `add`ed to it: the
transaction id can be `None`). -/
structure St where
  convert2rhel_installed : Bool := false
  transaction_id : Option String := none
  conversion_successful : Bool := false
  rollback_errors : String := ""
  undo : List (Option String) := []
  gpgKeep : Bool := false
  repoKeep : Bool := false
  out : OutputCollector := {}
deriving DecidableEq, Repr

def ELIGIBILITY_ERROR_MESSAGE : String :=
  "Conversion is only supported on CentOS 7.9 distributions."

def eligibilityErrorReport (dist : String) (version : Option String) : String :=
  "Exiting because distribution=\"" ++ pyTitle dist ++ "\" and version=\"" ++
    fmtOpt version ++ "\""

def ROLLBACK_FAILED_MESSAGE : String :=
  "A rollback of changes performed by convert2rhel failed. The system is in an undefined state. Recover the system from a backup or contact Red Hat support."

def rollbackFailedReport (rollback_errors : String) : String :=
  "\nFor details, refer to the convert2rhel log file on the host at /var/log/convert2rhel/convert2rhel.log. Relevant lines from log file: \n" ++
    rollback_errors ++ "\n"

def ANALYSIS_FAILED_MESSAGE : String :=
  "An error occurred during the pre-conversion analysis. For details, refer to the convert2rhel log file on the host at /var/log/convert2rhel/convert2rhel.log"

def analysisFailedReport (rc : Nat) (stdout : String) : String :=
  "convert2rhel exited with code " ++ toString rc ++
    ".\nOutput of the failed command: " ++ pyRstripNl stdout

def UNEXPECTED_ERROR_MESSAGE : String :=
  "An unexpected error occurred. Expand the row for more details."

/-- Lines 692-738 of the `try` body of `main`, from the tool invocation on:
classify the exit code, scan the rollback log, raise on failure, then
remediate (host metering) and refresh the Insights inventory.  `st1` is the
state right after the install step.  The `IndexError` escaping
`check_for_inhibitors_in_rollback` lands in the generic `except Exception`
arm, hence `Exc.unexpected`. -/
def mainTryStage2 (env : Env) (st1 : St) : St × Option Exc :=
  let (stdout, rc) := run_convert2rhel env
  let st2 : St := { st1 with conversion_successful := rc == 0 }
  match check_for_inhibitors_in_rollback env.log with
  | .error _ => (st2, some (.unexpected "list index out of range"))
  | .ok rollback_errors =>
    let st3 : St := { st2 with rollback_errors := rollback_errors }
    if rc != 0 then
      if rollback_errors != "" then
        (st3, some (.processError ROLLBACK_FAILED_MESSAGE
          (rollbackFailedReport rollback_errors)))
      else
        (st3, some (.processError ANALYSIS_FAILED_MESSAGE
          (analysisFailedReport rc stdout)))
    else
      match configure_host_metering env with
      | .error e => (st3, some e)
      | .ok _ =>
        match update_insights_inventory env with
        | .error e => (st3, some e)
        | .ok _ => (st3, none)

/-- The `try` body of `main` (lines 675-738): returns the state reached and
the exception that aborted it, if any.  An `AttributeError` on a `None`
distribution lands in the generic `except Exception` arm, hence
`Exc.unexpected`. -/
def mainTry (env : Env) : St × Option Exc :=
  let st0 : St := {}
  match env.distroId with
  | none =>
    (st0, some (.unexpected "'NoneType' object has no attribute 'startswith'"))
  | some dist =>
    if !(pyStartswith dist "centos") || !(is_eligible_releases env.versionId) then
      (st0, some (.processError ELIGIBILITY_ERROR_MESSAGE
        (eligibilityErrorReport dist env.versionId)))
    else if env.setupFails then
      (st0, some (.unexpected "download or write of a required file failed"))
    else
      match check_convert2rhel_inhibitors_before_run env with
      | .error e => (st0, some e)
      | .ok _ =>
        match install_convert2rhel env with
        | .error e => (st0, some e)
        | .ok (installed, txid) =>
          mainTryStage2 env
            { st0 with convert2rhel_installed := installed, transaction_id := txid,
                       undo := if installed then st0.undo ++ [txid] else st0.undo }

/-- The `except` arms of `main`: turn the exception, if any, into the
error-shaped `OutputCollector`. -/
def mainCatch (env : Env) : St :=
  let (st, exc) := mainTry env
  match exc with
  | none => st
  | some (.processError m r) =>
    { st with out := { status := "ERROR", alert := true, error := false,
                       message := m, report := r, entries := none } }
  | some (.unexpected s) =>
    { st with out := { status := "ERROR", alert := true, error := false,
                       message := UNEXPECTED_ERROR_MESSAGE, report := s, entries := none } }

/-- The report-reconciliation part of the `finally` block (lines 759-792).
`none` models an exception escaping the `finally` block: the `IndexError`
of `find_highest_report_level` when the parsed report holds no known level
(`generate_report_message` is reached only with the level that lookup
returned, so it cannot fail). -/
def finalize_report_block (env : Env) (st : St) : Option St :=
  match gather_json_report env.reportState with
  | none => some st
  | some actions =>
    if st.rollback_errors != "" then some st
    else
      match find_highest_report_level actions with
      | none => none
      | some highest_level =>
        let st := { st with out := { st.out with status := highest_level } }
        let mb := generate_report_message highest_level
        let st := { st with out := { st.out with message := mb.1, alert := mb.2 } }
        let st :=
          if !st.out.alert then
            { st with gpgKeep := true,
                      undo := if st.convert2rhel_installed then
                          st.undo.erase st.transaction_id
                        else st.undo,
                      repoKeep := true }
          else st
        let st :=
          if st.out.report == "" && !st.conversion_successful then
            { st with out := { st.out with report := gather_textual_report env } }
          else st
        let st :=
          if !st.conversion_successful && st.rollback_errors == "" then
            { st with out := { st.out with entries := some (transform_raw_data actions) } }
          else st
        some st

/-- `main` up to (and including) report reconciliation. -/
def mainPre (env : Env) : Option St :=
  finalize_report_block env (mainCatch env)

/-- The undo loop of `cleanup` crashes on a `None` transaction id
(`" ".join` raises `TypeError`, uncaught inside `finally`). -/
def cleanupCrashes (st : St) : Bool :=
  st.undo.any (fun t => t.isNone)

/-- `main` through the whole `finally` block: `some st` iff the process
reaches the verdict-printing lines, with `st` the state printed from. -/
def mainRun (env : Env) : Option St :=
  match mainPre env with
  | none => none
  | some st => if cleanupCrashes st then none else some st

def JSON_START_MARKER : String := "### JSON START ###"

def JSON_END_MARKER : String := "### JSON END ###"

/-- What `main` leaves on stdout at the end: `some (start, verdict, end)`
models exactly one JSON object printed between the two fixed marker lines;
`none` models an uncaught exception (no JSON is printed). -/
def mainEmitsVerdict (env : Env) : Option (String × Verdict × String) :=
  (mainRun env).map (fun st => (JSON_START_MARKER, st.out.to_dict, JSON_END_MARKER))

/-- The process exit status: 0 on a normal return from `main`, non-zero when
an exception escapes it. -/
def mainExitCode (env : Env) : Nat :=
  if (mainRun env).isSome then 0 else 1

/-- The verdict alone. -/
def mainVerdict (env : Env) : Option Verdict :=
  (mainRun env).map (fun st => st.out.to_dict)

/-- The two `RequiredFile` objects of `main`, with the final value of their
`keep` flags. -/
def mainRequiredFiles (st : St) : List RequiredFile :=
  [{ path := "/etc/pki/rpm-gpg/RPM-GPG-KEY-redhat-release",
     host := "https://www.redhat.com/security/data/fd431d51.txt",
     keep := st.gpgKeep },
   { path := "/etc/yum.repos.d/convert2rhel.repo",
     host := "https://ftp.redhat.com/redhat/convert2rhel/7/convert2rhel.repo",
     keep := st.repoKeep }]

/-- The state the finalize block produces from the post-catch state `stc`
when the parsed report ranks `WARNING` and the run recorded no rollback
errors: status/message/alert rewritten, both keep flags set, the pending
transaction (if the package was freshly installed) removed from the undo
set. -/
def warningFinalState (stc : St) : St :=
  { stc with
      gpgKeep := true,
      repoKeep := true,
      undo := (if stc.convert2rhel_installed then stc.undo.erase stc.transaction_id else stc.undo),
      out := { stc.out with
                status := "WARNING",
                message := CONVERSION_SUCCESS_MESSAGE,
                alert := false } }

deriving instance DecidableEq for Except

/-- The finding the spec promises for a non-`SUCCESS` record (refinement
side, written from the spec's flattening contract): key
`<action_id>::<message_id>`, `level` renamed to `severity`, `description`
renamed to `summary`, a detail block folding remediation(s) and diagnosis
each as a single-element context list (original text or empty string), and
an empty modifiers list. -/
def findingOfRecord (action_id : String) (m : RawMessage) : Finding :=
  { key := action_id ++ "::" ++ m.id,
    severity := m.level,
    summary := m.description,
    detail :=
      { remediations := [{ context := match m.remediations with
          | some r => r
          | none => m.remediation.getD "" }],
        diagnosis := [{ context := m.diagnosis.getD "" }] },
    modifiers := [] }

/-- The flattening contract as the spec words it: for every action take its
message records and its result record, drop exactly those whose level is the
lowest tier `"SUCCESS"`, and turn each remaining record into the one finding
described by `findingOfRecord`. -/
def flattenPerSpec : List (String × Action) → List Finding
  | [] => []
  | p :: rest =>
    ((p.2.messages ++ [p.2.result]).filter (fun m => m.level != "SUCCESS")).map
        (findingOfRecord p.1)
      ++ flattenPerSpec rest

def KNOWN_LEVELS : List String :=
  ["SUCCESS", "INFO", "WARNING", "SKIP", "OVERRIDABLE", "ERROR"]

/-- A concrete actions mapping mixing known and unknown levels, used as a
witness input. -/
def sampleActions : List (String × Action) :=
  [("a", { result := { id := "r1", level := "WARNING", description := "",
                       remediations := none, remediation := none, diagnosis := none },
           messages := [{ id := "m1", level := "BOGUS", description := "",
                          remediations := none, remediation := none, diagnosis := none },
                        { id := "m2", level := "INFO", description := "",
                          remediations := none, remediation := none, diagnosis := none }] })]


/-! ## Generic helper lemmas -/

theorem string_ne_append_backup (path : String) : path ≠ path ++ ".backup" := by
  intro h
  have hdata : path.data = (path ++ ".backup").data := congrArg String.data h
  have : (path ++ ".backup").data = path.data ++ ".backup".data := by
    cases path with
    | mk l => rfl
  rw [this] at hdata
  have := congrArg List.length hdata
  simp at this

/-! ## C7: backup/restore involution -/

/-- C7: starting from a filesystem where the file exists at `path` and no
`.backup` sibling exists, one application of `_create_or_restore_backup_file`
moves the file to `path ++ ".backup"`, and a second application restores the
original filesystem state exactly. -/
theorem preserve_is_involution (fs : FS) (path content : String)
    (h1 : fs path = some content) (h2 : fs (path ++ ".backup") = none) :
    (_create_or_restore_backup_file path fs) path = none ∧
    (_create_or_restore_backup_file path fs) (path ++ ".backup") = some content ∧
    _create_or_restore_backup_file path (_create_or_restore_backup_file path fs) = fs := by
  have hne : path ≠ path ++ ".backup" := string_ne_append_backup path
  have e1 : _create_or_restore_backup_file path fs = fsRename path (path ++ ".backup") fs := by
    unfold _create_or_restore_backup_file
    rw [h2, h1]
    simp
  have f1 : fsRename path (path ++ ".backup") fs path = none := by
    simp [fsRename, hne]
  have f2 : fsRename path (path ++ ".backup") fs (path ++ ".backup") = some content := by
    simp [fsRename, h1]
  refine ⟨by rw [e1]; exact f1, by rw [e1]; exact f2, ?_⟩
  rw [e1]
  have e2 : _create_or_restore_backup_file path (fsRename path (path ++ ".backup") fs) =
      fsRename (path ++ ".backup") path (fsRename path (path ++ ".backup") fs) := by
    unfold _create_or_restore_backup_file
    rw [f2]
    simp
  rw [e2]
  funext p
  by_cases hp : p = path
  · subst hp
    simp [fsRename, hne, Ne.symm hne, h1]
  · by_cases hb : p = path ++ ".backup"
    · subst hb
      simp [fsRename, Ne.symm hne, h2]
    · simp [fsRename, hp, hb]

/-- Witness for C7 at a concrete filesystem. -/
theorem preserve_is_involution_witness :
    (fun p => if p = "/etc/pki/key" then some "KEY" else none : FS) "/etc/pki/key" = some "KEY" ∧
    (fun p => if p = "/etc/pki/key" then some "KEY" else none : FS) ("/etc/pki/key" ++ ".backup") = none ∧
    _create_or_restore_backup_file "/etc/pki/key"
      (_create_or_restore_backup_file "/etc/pki/key"
        (fun p => if p = "/etc/pki/key" then some "KEY" else none)) =
      (fun p => if p = "/etc/pki/key" then some "KEY" else none) := by
  refine ⟨by decide, by decide, ?_⟩
  exact (preserve_is_involution _ "/etc/pki/key" "KEY" (by decide) (by decide)).2.2

/-! ## C8: no rollback marker, empty result -/

/-- C8: when no (stripped) log line equals the rollback-start marker,
`check_for_inhibitors_in_rollback` returns the empty string — even when
lines elsewhere in the log match the error vocabulary, which the hypothesis
does not exclude. -/
theorem rollback_scan_empty_without_marker (raws : List String)
    (h : ∀ l ∈ raws, pyStrip l ≠ ROLLBACK_MARKER) :
    check_for_inhibitors_in_rollback (some raws) = .ok "" := by
  unfold check_for_inhibitors_in_rollback
  have hnone : (raws.map pyStrip).findIdx? (· == ROLLBACK_MARKER) = none := by
    rw [List.findIdx?_eq_none_iff]
    intro x hx
    obtain ⟨l, hl, rfl⟩ := List.mem_map.mp hx
    simpa using h l hl
  simp only [hnone]

/-- Witness for C8: a log full of error-vocabulary lines but no marker. -/
theorem rollback_scan_empty_without_marker_witness :
    check_for_inhibitors_in_rollback
      (some ["Checking for error patterns...", "operation fail denied Traceback",
             "couldn't find a backup"]) = .ok "" :=
  rollback_scan_empty_without_marker _ (by decide)

/-! ## C3: the bounded rollback slice -/

/-- Counterexample to C3: a log that contains the rollback-start marker but
no report-generated line.  The claim says the scan treats end-of-log as the
boundary and returns the joined matches from the slice after the marker
(here that slice holds a matching `"ERROR - could not restore backup"`
line); the code instead raises an uncaught `IndexError`. -/
theorem rollback_scan_no_report_marker_raises :
    check_for_inhibitors_in_rollback
        (some [ROLLBACK_MARKER, "ERROR - could not restore backup"]) = .error () ∧
    detectErrorInRollback "ERROR - could not restore backup" = true := by
  constructor
  · rfl
  · decide

/-- C3 as amended: with the rollback marker present at (first) stripped-line
index `si`, the scan is bounded by the first line containing the
report-generated marker taken from anywhere in the log (so the slice is
empty when that line precedes the marker); when no line contains it the
function raises an uncaught `IndexError` instead of treating end-of-log as
the boundary. -/
theorem rollback_scan_bounded_slice (raws : List String) (si : Nat)
    (hsi : (raws.map pyStrip).findIdx? (· == ROLLBACK_MARKER) = some si) :
    (reportMarkerIdxs (raws.map pyStrip) = [] →
      check_for_inhibitors_in_rollback (some raws) = .error ()) ∧
    (∀ ei rest, reportMarkerIdxs (raws.map pyStrip) = ei :: rest →
      check_for_inhibitors_in_rollback (some raws) =
        .ok (joinNl ((((raws.map pyStrip).drop (si + 1)).take (ei - (si + 1))).filter
          detectErrorInRollback))) := by
  constructor
  · intro hempty
    unfold check_for_inhibitors_in_rollback
    simp only [hsi, hempty]
  · intro ei rest hcons
    unfold check_for_inhibitors_in_rollback
    simp only [hsi, hcons]

/-- Witness for the amended C3, exercising both arms on concrete logs. -/
theorem rollback_scan_bounded_slice_witness :
    check_for_inhibitors_in_rollback
        (some [ROLLBACK_MARKER, "a fail line"]) = .error () ∧
    check_for_inhibitors_in_rollback
        (some [ROLLBACK_MARKER, "a fail line", "ok line",
               "Pre-conversion analysis report"]) =
      .ok (joinNl (((([ROLLBACK_MARKER, "a fail line", "ok line",
               "Pre-conversion analysis report"].map pyStrip).drop (0 + 1)).take
                 (3 - (0 + 1))).filter detectErrorInRollback)) := by
  constructor
  · exact (rollback_scan_bounded_slice _ 0 (by decide)).1 (by decide)
  · exact (rollback_scan_bounded_slice _ 0 (by decide)).2 3 [] (by decide)

/-! ## C5: flattening refinement -/

theorem apply_message_transform_eq (m : RawMessage) (aid : String) :
    apply_message_transform m aid =
      if m.level != "SUCCESS" then some (findingOfRecord aid m) else none := by
  unfold apply_message_transform _filter_message_level findingOfRecord
  by_cases h : (m.level != "SUCCESS") = true
  · simp [h]
  · simp [h]

theorem filterMap_apply_eq (aid : String) (msgs : List RawMessage) :
    (msgs.map (fun m => apply_message_transform m aid)).filterMap id
      = (msgs.filter (fun m => m.level != "SUCCESS")).map (findingOfRecord aid) := by
  induction msgs with
  | nil => rfl
  | cons m t ih =>
    simp only [List.map_cons, List.filterMap_cons, List.filter_cons]
    rw [apply_message_transform_eq]
    by_cases h : (m.level != "SUCCESS") = true
    · simp [h, ih]
    · simp [h, ih]

/-- C5: `transform_raw_data` equals the spec-side flattening: for every
actions mapping it drops exactly the records whose level is `"SUCCESS"` and
maps every other record (messages and result alike) to the single finding
with the derived key, renamed severity/summary fields, single-element
detail block and empty modifiers. -/
theorem transform_raw_data_matches_spec (raw : List (String × Action)) :
    transform_raw_data raw = flattenPerSpec raw := by
  induction raw with
  | nil => rfl
  | cons p rest ih =>
    unfold transform_raw_data at ih ⊢
    unfold collect_new_data flattenPerSpec
    rw [List.filterMap_append, List.filterMap_append, ih]
    rw [filterMap_apply_eq, List.filter_append, List.map_append]
    congr 1
    congr 1
    simp only [List.filterMap_cons, List.filter_cons, List.filterMap_nil, List.filter_nil]
    rw [apply_message_transform_eq]
    by_cases h : (p.2.result.level != "SUCCESS") = true
    · simp [h]
    · simp [h]

/-! ## C6: severity ranking -/

theorem known_level_mem (l : String) (h : isKnownLevel l = true) : l ∈ KNOWN_LEVELS := by
  simp only [isKnownLevel, STATUS_CODE, List.any_cons, List.any_nil, Bool.or_eq_true,
    beq_iff_eq, Bool.false_eq_true, or_false] at h
  rcases h with h | h | h | h | h | h <;> subst h <;> decide

theorem statusCode_inj_known :
    ∀ a ∈ KNOWN_LEVELS, ∀ b ∈ KNOWN_LEVELS, statusCode a = statusCode b → a = b := by
  decide

theorem insertLevelDesc_perm (x : String) (l : List String) :
    (insertLevelDesc x l).Perm (x :: l) := by
  induction l with
  | nil => exact List.Perm.refl _
  | cons y ys ih =>
    unfold insertLevelDesc
    by_cases h : statusCode y < statusCode x
    · simp only [if_pos h]
      exact List.Perm.refl _
    · simp only [if_neg h]
      exact ((ih.cons y).trans (List.Perm.swap x y ys))

theorem sortLevelsDesc_perm (l : List String) : (sortLevelsDesc l).Perm l := by
  induction l with
  | nil => exact List.Perm.refl _
  | cons x xs ih =>
    unfold sortLevelsDesc
    exact (insertLevelDesc_perm x (sortLevelsDesc xs)).trans (ih.cons x)

theorem sortLevelsDesc_head_max (l : List String) (m : String)
    (h : (sortLevelsDesc l).head? = some m) :
    m ∈ l ∧ ∀ x ∈ l, statusCode x ≤ statusCode m := by
  induction l generalizing m with
  | nil => simp [sortLevelsDesc] at h
  | cons z zs ih =>
    unfold sortLevelsDesc at h
    cases hzs : sortLevelsDesc zs with
    | nil =>
      have hz : zs = [] := by
        have := (sortLevelsDesc_perm zs).symm
        rw [hzs] at this
        exact this.eq_nil
      subst hz
      simp [insertLevelDesc, hzs] at h
      subst h
      simp
    | cons w ws =>
      rw [hzs] at h
      have hw := ih w (by rw [hzs]; rfl)
      unfold insertLevelDesc at h
      by_cases hlt : statusCode w < statusCode z
      · rw [if_pos hlt] at h
        simp only [List.head?_cons, Option.some.injEq] at h
        subst h
        refine ⟨List.mem_cons_self _ _, ?_⟩
        intro x hx
        rcases List.mem_cons.mp hx with rfl | hx
        · exact le_refl _
        · exact le_of_lt (lt_of_le_of_lt (hw.2 x hx) hlt)
      · rw [if_neg hlt] at h
        simp only [List.head?_cons, Option.some.injEq] at h
        subst h
        refine ⟨List.mem_cons_of_mem _ hw.1, ?_⟩
        intro x hx
        rcases List.mem_cons.mp hx with rfl | hx
        · exact le_of_not_lt hlt
        · exact hw.2 x hx

theorem find_highest_eq (actions : List (String × Action)) :
    find_highest_report_level actions =
      (sortLevelsDesc ((action_levels actions).filter isKnownLevel)).head? := rfl

/-- C6: whenever at least one collected level belongs to the known tier set,
`find_highest_report_level` returns a known tier that is present among the
collected levels, dominates (in `STATUS_CODE` rank) every known collected
level — unknown values are ignored — and the result is unchanged under any
permutation of the collected levels. -/
theorem find_highest_report_level_max (actions : List (String × Action))
    (h : ∃ l ∈ action_levels actions, isKnownLevel l = true) :
    ∃ m, find_highest_report_level actions = some m ∧
      m ∈ action_levels actions ∧ isKnownLevel m = true ∧
      (∀ l ∈ action_levels actions, isKnownLevel l = true → statusCode l ≤ statusCode m) ∧
      (∀ actions' : List (String × Action),
        (action_levels actions').Perm (action_levels actions) →
        find_highest_report_level actions' = some m) := by
  obtain ⟨l0, hl0, hk0⟩ := h
  have hV0 : l0 ∈ (action_levels actions).filter isKnownLevel :=
    List.mem_filter.mpr ⟨hl0, hk0⟩
  have hVne : (action_levels actions).filter isKnownLevel ≠ [] :=
    List.ne_nil_of_mem hV0
  have hSne : sortLevelsDesc ((action_levels actions).filter isKnownLevel) ≠ [] := by
    intro hnil
    have := (sortLevelsDesc_perm ((action_levels actions).filter isKnownLevel)).symm
    rw [hnil] at this
    exact hVne this.eq_nil
  obtain ⟨m, hm⟩ : ∃ m,
      (sortLevelsDesc ((action_levels actions).filter isKnownLevel)).head? = some m := by
    cases hs : sortLevelsDesc ((action_levels actions).filter isKnownLevel) with
    | nil => exact absurd hs hSne
    | cons a t => exact ⟨a, rfl⟩
  obtain ⟨hmem, hmax⟩ := sortLevelsDesc_head_max _ m hm
  have hmL : m ∈ action_levels actions := (List.mem_filter.mp hmem).1
  have hmK : isKnownLevel m = true := (List.mem_filter.mp hmem).2
  refine ⟨m, by rw [find_highest_eq]; exact hm, hmL, hmK, ?_, ?_⟩
  · intro l hl hk
    exact hmax l (List.mem_filter.mpr ⟨hl, hk⟩)
  · intro actions' hperm
    have hpermV : ((action_levels actions').filter isKnownLevel).Perm
        ((action_levels actions).filter isKnownLevel) := hperm.filter _
    have hV'ne : (action_levels actions').filter isKnownLevel ≠ [] := by
      intro hnil
      rw [hnil] at hpermV
      exact hVne hpermV.symm.eq_nil
    have hS'ne : sortLevelsDesc ((action_levels actions').filter isKnownLevel) ≠ [] := by
      intro hnil
      have := (sortLevelsDesc_perm ((action_levels actions').filter isKnownLevel)).symm
      rw [hnil] at this
      exact hV'ne this.eq_nil
    obtain ⟨m', hm'⟩ : ∃ m',
        (sortLevelsDesc ((action_levels actions').filter isKnownLevel)).head? = some m' := by
      cases hs : sortLevelsDesc ((action_levels actions').filter isKnownLevel) with
      | nil => exact absurd hs hS'ne
      | cons a t => exact ⟨a, rfl⟩
    obtain ⟨hmem', hmax'⟩ := sortLevelsDesc_head_max _ m' hm'
    have hm'V : m' ∈ (action_levels actions).filter isKnownLevel :=
      hpermV.subset hmem'
    have hmV' : m ∈ (action_levels actions').filter isKnownLevel :=
      hpermV.symm.subset hmem
    have hle1 : statusCode m' ≤ statusCode m := hmax m' hm'V
    have hle2 : statusCode m ≤ statusCode m' := hmax' m hmV'
    have hcodes : statusCode m' = statusCode m := le_antisymm hle1 hle2
    have hm'K : isKnownLevel m' = true := (List.mem_filter.mp hmem').2
    have : m' = m :=
      statusCode_inj_known m' (known_level_mem m' hm'K)
        m (known_level_mem m hmK) hcodes
    rw [find_highest_eq, hm', this]

/-- An actions mapping whose only level is unknown to the tier set. -/
def bogusActions : List (String × Action) :=
  [("act", { result := { id := "r", level := "BOGUS", description := "d",
                         remediations := none, remediation := none, diagnosis := none },
             messages := [] })]

/-- An actions mapping whose highest known level is WARNING. -/
def warningActions : List (String × Action) :=
  [("act", { result := { id := "r", level := "WARNING", description := "d",
                         remediations := none, remediation := none, diagnosis := none },
             messages := [] })]

/-- A base environment: eligible CentOS 7.9 host, all external calls
succeed; the tool exits 0; no log file; no report files. -/
def baseEnv : Env :=
  { distroId := some "centos linux", versionId := some "7.9", setupFails := false,
    customIniPath := "/root/.convert2rhel.ini", customIniExists := false,
    rpmVaOutput := "", rpmVaRc := 0, c2rInstalled := true,
    yumInstallOutput := "", yumInstallRc := 0, yumUpdateOutput := "", yumUpdateRc := 0,
    yumHistoryOutput := "", yumHistoryRc := 0, convertOutput := "", convertRc := 0,
    log := none, paygVar := none,
    meteringInstallOutput := "", meteringInstallRc := 0,
    meteringEnableOutput := "", meteringEnableRc := 0,
    meteringStartOutput := "", meteringStartRc := 0,
    insightsOutput := "", insightsRc := 0,
    reportState := .missing, reportTxt := none }

/-- Environment for an ineligible distribution whose run fails at
eligibility, with an unparseable report file and a free-text report
present. -/
def envEligFail : Env :=
  { baseEnv with distroId := some "fedora", convertRc := 1,
                 reportState := .unparseable, reportTxt := some "TXT" }

/-- Environment of a successful run whose parsed report contains no known
severity tier. -/
def envBogusReport : Env := { baseEnv with reportState := .parsed bogusActions }

/-- Environment of a successful run whose parsed report ranks WARNING. -/
def envWarningReport : Env := { baseEnv with reportState := .parsed warningActions }

/-- Environment where convert2rhel is already installed (update path). -/
def envUpdatePath : Env := baseEnv

/-- Environment where convert2rhel is absent, the install succeeds, and the
transaction-id lookup fails (`yum history list` exits 1). -/
def envFreshNoTxId : Env := { baseEnv with c2rInstalled := false, yumHistoryRc := 1 }

/-- Environment where convert2rhel is absent, the install succeeds, and the
transaction-id lookup finds transaction 7. -/
def envFreshTx : Env :=
  { baseEnv with c2rInstalled := false,
                 yumHistoryOutput := "ID | Command\n     7 | install convert2rhel" }

/-- Witness for C6 on a concrete actions mapping mixing known and unknown
levels across result and message records. -/
theorem find_highest_report_level_max_witness :
    (find_highest_report_level sampleActions).isSome = true := by
  obtain ⟨m, hm, -⟩ :=
    find_highest_report_level_max sampleActions ⟨"WARNING", by decide, by decide⟩
  rw [hm]
  rfl

/-! ## C10: no known level, no result -/

/-- C10: when no collected result or message level belongs to the known tier
set (in particular for an empty actions mapping), `find_highest_report_level`
yields no value (the `IndexError` of `valid_action_levels[0]`), and the
finalize block that calls it on a non-empty parsed report with no recorded
rollback errors does not complete normally. -/
theorem find_highest_report_level_none (actions : List (String × Action))
    (h : ∀ l ∈ action_levels actions, isKnownLevel l = false) :
    find_highest_report_level actions = none ∧
    (∀ (env : Env) (st : St), env.reportState = .parsed actions →
      st.rollback_errors = "" → finalize_report_block env st = none) := by
  have hfilter : (action_levels actions).filter isKnownLevel = [] := by
    rw [List.filter_eq_nil_iff]
    intro a ha
    simp [h a ha]
  have hnone : find_highest_report_level actions = none := by
    rw [find_highest_eq, hfilter]
    rfl
  refine ⟨hnone, ?_⟩
  intro env st hrep hrb
  unfold finalize_report_block
  rw [hrep]
  simp only [gather_json_report, hrb, hnone]
  simp

/-- Witness for C10: the unknown-level report above, evaluated both through
`find_highest_report_level` and through the finalize block of `main`. -/
theorem find_highest_report_level_none_witness :
    find_highest_report_level bogusActions = none ∧
    finalize_report_block envBogusReport {} = none := by
  refine ⟨(find_highest_report_level_none bogusActions (by decide)).1, ?_⟩
  exact (find_highest_report_level_none bogusActions (by decide)).2 envBogusReport {} rfl rfl

/-! ## C4: undo handle registered iff fresh install -/

/-- C4: the pending-undo set gains an entry if and only if the package was
freshly installed: on the update path the installer returns `(false, none)`
and registers nothing; on a successful fresh install it returns `true`
together with the best-effort transaction id, and when that lookup fails the
call still succeeds (not fatal) and yields no undo handle (`none`). -/
theorem install_undo_iff_fresh (env : Env) :
    (env.c2rInstalled = true →
      ∀ r undo, installStep env = .ok (r, undo) → r = (false, none) ∧ undo = []) ∧
    (env.c2rInstalled = false → env.yumInstallRc = 0 →
      installStep env =
        .ok ((true, _get_last_yum_transaction_id env), [_get_last_yum_transaction_id env])) ∧
    (∀ r undo, installStep env = .ok (r, undo) → (undo ≠ [] ↔ r.1 = true)) ∧
    (env.c2rInstalled = false → env.yumInstallRc = 0 →
      _get_last_yum_transaction_id env = none →
      installStep env = .ok ((true, none), [none])) := by
  refine ⟨?_, ?_, ?_, ?_⟩
  · intro hc r undo h
    unfold installStep install_convert2rhel at h
    rw [hc] at h
    simp at h
    split at h
    · simp at h
    · rename_i installed txid heq
      split at heq
      · simp at heq
        obtain ⟨h1, h2⟩ := heq
        subst h1
        subst h2
        simp at h
        exact ⟨h.1.symm, h.2⟩
      · simp at heq
  · intro hc hrc
    unfold installStep install_convert2rhel
    rw [hc, hrc]
    rfl
  · intro r undo h
    unfold installStep install_convert2rhel at h
    by_cases hc : env.c2rInstalled = true
    · rw [hc] at h
      simp at h
      split at h
      · simp at h
      · rename_i installed txid heq
        split at heq
        · simp at heq
          obtain ⟨h1, h2⟩ := heq
          subst h1
          subst h2
          simp at h
          rw [← h.1, h.2]
          simp
        · simp at heq
    · rw [Bool.not_eq_true] at hc
      rw [hc] at h
      simp at h
      split at h
      · simp at h
      · rename_i installed txid heq
        split at heq
        · simp at heq
          obtain ⟨h1, h2⟩ := heq
          subst h1
          subst h2
          simp at h
          rw [← h.1, ← h.2]
          simp
        · simp at heq
  · intro hc hrc htx
    unfold installStep install_convert2rhel
    rw [hc, hrc, htx]
    rfl

/-- Witness for C4: the fresh-install path with a found transaction id, the
fresh-install path with a failed lookup, and the registered-iff-fresh
equivalence at the concrete fresh install. -/
theorem install_undo_iff_fresh_witness :
    installStep envFreshTx =
      .ok ((true, _get_last_yum_transaction_id envFreshTx),
           [_get_last_yum_transaction_id envFreshTx]) ∧
    installStep envFreshNoTxId = .ok ((true, none), [none]) ∧
    ([some "7"] ≠ ([] : List (Option String)) ↔ (true, some "7").1 = true) :=
  ⟨(install_undo_iff_fresh envFreshTx).2.1 rfl rfl,
   (install_undo_iff_fresh envFreshNoTxId).2.2.2 rfl rfl (by decide),
   (install_undo_iff_fresh envFreshTx).2.2.1 (true, some "7") [some "7"] (by decide)⟩


/-! ## Lemmas about the orchestrator pipeline -/

theorem mainTryStage2_keeps (env : Env) (st : St) :
    (mainTryStage2 env st).1.convert2rhel_installed = st.convert2rhel_installed ∧
    (mainTryStage2 env st).1.transaction_id = st.transaction_id ∧
    (mainTryStage2 env st).1.undo = st.undo ∧
    (mainTryStage2 env st).1.gpgKeep = st.gpgKeep ∧
    (mainTryStage2 env st).1.repoKeep = st.repoKeep ∧
    (mainTryStage2 env st).1.out = st.out := by
  unfold mainTryStage2
  repeat' split
  all_goals exact ⟨rfl, rfl, rfl, rfl, rfl, rfl⟩

theorem install_ok_fresh (env : Env) (txid : Option String)
    (h : install_convert2rhel env = .ok (true, txid)) :
    txid = _get_last_yum_transaction_id env ∧ env.c2rInstalled = false := by
  unfold install_convert2rhel at h
  by_cases hc : env.c2rInstalled = true
  · rw [hc] at h
    simp at h
    split at h <;> simp_all
  · rw [Bool.not_eq_true] at hc
    rw [hc] at h
    simp at h
    split at h
    · simp at h
      exact ⟨h.symm, hc⟩
    · simp at h

theorem mainTry_undo_all_some (env : Env)
    (hundo : env.c2rInstalled = true ∨ (_get_last_yum_transaction_id env).isSome) :
    ∀ t ∈ (mainTry env).1.undo, t.isSome := by
  unfold mainTry
  split
  · intro t ht
    simp at ht
  · split
    · intro t ht
      simp at ht
    · split
      · intro t ht
        simp at ht
      · split
        · intro t ht
          simp at ht
        · split
          · intro t ht
            simp at ht
          · rename_i installed txid hinst
            intro t ht
            rw [(mainTryStage2_keeps env _).2.2.1] at ht
            by_cases hi : installed = true
            · subst hi
              simp at ht
              rw [ht]
              obtain ⟨htx, hc⟩ := install_ok_fresh env txid hinst
              rcases hundo with h | h
              · rw [hc] at h
                exact absurd h (by simp)
              · rw [htx]
                exact h
            · rw [Bool.not_eq_true] at hi
              subst hi
              simp at ht

theorem mainCatch_fields (env : Env) :
    (mainCatch env).convert2rhel_installed = (mainTry env).1.convert2rhel_installed ∧
    (mainCatch env).transaction_id = (mainTry env).1.transaction_id ∧
    (mainCatch env).conversion_successful = (mainTry env).1.conversion_successful ∧
    (mainCatch env).rollback_errors = (mainTry env).1.rollback_errors ∧
    (mainCatch env).undo = (mainTry env).1.undo ∧
    (mainCatch env).gpgKeep = (mainTry env).1.gpgKeep ∧
    (mainCatch env).repoKeep = (mainTry env).1.repoKeep := by
  rcases h : mainTry env with ⟨st, exc⟩
  unfold mainCatch
  rw [h]
  rcases exc with _ | (⟨m, r⟩ | s) <;>
    exact ⟨rfl, rfl, rfl, rfl, rfl, rfl, rfl⟩

theorem gather_eq_some (env : Env) (acts : List (String × Action))
    (h : gather_json_report env.reportState = some acts) :
    env.reportState = .parsed acts := by
  cases hrs : env.reportState <;> rw [hrs] at h <;> simp [gather_json_report] at h
  rw [h]

theorem finalize_undo_cases (env : Env) (st st' : St)
    (h : finalize_report_block env st = some st') :
    st'.undo = st.undo ∨ st'.undo = st.undo.erase st.transaction_id := by
  unfold finalize_report_block at h
  split at h
  case h_1 =>
    simp at h
    left
    rw [← h]
  case h_2 acts heq =>
    split at h
    case isTrue =>
      simp at h
      left
      rw [← h]
    case isFalse =>
      split at h
      case h_1 => simp at h
      case h_2 hl hhl =>
        simp only [Option.some.injEq] at h
        subst h
        by_cases halert : (generate_report_message hl).2 = true
        · left
          simp [halert, apply_ite St.undo]
        · rw [Bool.not_eq_true] at halert
          by_cases hi : st.convert2rhel_installed = true
          · right
            simp [halert, hi, apply_ite St.undo]
          · rw [Bool.not_eq_true] at hi
            left
            simp [halert, hi, apply_ite St.undo]

theorem finalize_exists (env : Env) (st : St)
    (hrep : ∀ acts, env.reportState = .parsed acts →
      (find_highest_report_level acts).isSome) :
    ∃ st', finalize_report_block env st = some st' := by
  unfold finalize_report_block
  split
  case h_1 => exact ⟨st, rfl⟩
  case h_2 acts heq =>
    have hpar : env.reportState = .parsed acts := gather_eq_some env acts heq
    have hsome := hrep acts hpar
    rw [Option.isSome_iff_exists] at hsome
    obtain ⟨hl, hhl⟩ := hsome
    split
    case isTrue => exact ⟨st, rfl⟩
    case isFalse =>
      rw [hhl]
      exact ⟨_, rfl⟩


theorem mainTry_out_default (env : Env) : (mainTry env).1.out = ({} : OutputCollector) := by
  unfold mainTry
  split
  · rfl
  · split
    · rfl
    · split
      · rfl
      · split
        · rfl
        · split
          · rfl
          · exact ((mainTryStage2_keeps env _).2.2.2.2.2).trans rfl

theorem mainCatch_entries_none (env : Env) : (mainCatch env).out.entries = none := by
  unfold mainCatch
  rcases h : mainTry env with ⟨st, exc⟩
  have hout : st.out = ({} : OutputCollector) := by
    have := mainTry_out_default env
    rw [h] at this
    exact this
  rcases exc with _ | (⟨m, r⟩ | s)
  · simp [hout]
  · rfl
  · rfl

/-! ## C1: exactly one verdict, exit 0 -/

/-- Counterexample to C1: a run whose parsed report contains no known
severity tier.  The `finally` block itself then fails (`IndexError` in
`find_highest_report_level`), no JSON is printed and the process exits
non-zero, contradicting "exactly one Verdict ... exit status 0 regardless of
where an internal failure occurs (... or the finalize block itself)". -/
theorem verdict_emission_counterexample :
    mainEmitsVerdict envBogusReport = none ∧ mainExitCode envBogusReport = 1 := by
  decide

/-- C1 as amended: failures in the `try` body (eligibility, setup, install,
tool execution, remediation) are all converted into the Verdict, and the
process emits exactly one JSON object between the fixed markers and exits 0
— provided the finalize block itself does not fail, i.e. any parsed report
carries at least one known severity tier and the pending-undo set holds no
null transaction id at cleanup (ensured when the package was already
installed or the transaction-id lookup succeeds). -/
theorem verdict_emitted_unless_finalize_fails (env : Env)
    (hrep : ∀ acts, env.reportState = .parsed acts →
      (find_highest_report_level acts).isSome)
    (hundo : env.c2rInstalled = true ∨ (_get_last_yum_transaction_id env).isSome) :
    ∃ v, mainEmitsVerdict env = some (JSON_START_MARKER, v, JSON_END_MARKER) ∧
      mainExitCode env = 0 := by
  have hcatch : ∀ t ∈ (mainCatch env).undo, t.isSome := by
    have hu := (mainCatch_fields env).2.2.2.2.1
    rw [hu]
    exact mainTry_undo_all_some env hundo
  obtain ⟨st', hst'⟩ := finalize_exists env (mainCatch env) hrep
  have hall' : ∀ t ∈ st'.undo, t.isSome := by
    rcases finalize_undo_cases env (mainCatch env) st' hst' with he | he
    · rw [he]
      exact hcatch
    · rw [he]
      intro t ht
      exact hcatch t (List.mem_of_mem_erase ht)
  have hnc : cleanupCrashes st' = false := by
    unfold cleanupCrashes
    rw [List.any_eq_false]
    intro t ht
    have hs := hall' t ht
    cases t with
    | none => simp at hs
    | some a => simp
  refine ⟨st'.out.to_dict, ?_, ?_⟩
  · simp [mainEmitsVerdict, mainRun, mainPre, hst', hnc]
  · simp [mainExitCode, mainRun, mainPre, hst', hnc]

/-- Witness for the amended C1: the base environment (report file missing,
package already installed, everything succeeding). -/
theorem verdict_emitted_unless_finalize_fails_witness :
    (mainEmitsVerdict baseEnv).isSome = true ∧ mainExitCode baseEnv = 0 := by
  obtain ⟨v, hv, he⟩ :=
    verdict_emitted_unless_finalize_fails baseEnv
      (fun _ h => ReportFileState.noConfusion h) (Or.inl rfl)
  exact ⟨by rw [hv]; rfl, he⟩

/-! ## C2: empty/malformed report -/

/-- Counterexample to C2's fallback clause: the run fails (eligibility
error), the report file is unparseable, and a free-text report `"TXT"`
exists — yet the emitted Verdict keeps the exception's report and does NOT
fall back to the free-text content, because the fallback only runs inside
the non-empty-parsed-report branch. -/
theorem report_fallback_counterexample :
    gather_json_report envEligFail.reportState = none ∧
    gather_textual_report envEligFail = "TXT" ∧
    mainVerdict envEligFail =
      some { status := "ERROR", alert := true, error := false,
             message := ELIGIBILITY_ERROR_MESSAGE,
             report := "Exiting because distribution=\"Fedora\" and version=\"7.9\"",
             report_json := none } ∧
    (mainVerdict envEligFail).map Verdict.report ≠ some (gather_textual_report envEligFail) := by
  refine ⟨rfl, rfl, by decide, by decide⟩

/-- C2 as amended: for every report file content other than a parsed
non-empty report (missing, empty, malformed), gathering yields the empty
result, the reconciliation step of the finalize block never aborts the run
and leaves the collected verdict state completely unchanged (no structured
findings, no report-derived severity), and the Verdict that `main` goes on
to emit is exactly the one the exception handlers produced — the free-text
fallback is not applied. -/
theorem report_reconcile_empty_never_aborts (env : Env)
    (h : ∀ acts, env.reportState ≠ .parsed acts) :
    gather_json_report env.reportState = none ∧
    (∀ st, finalize_report_block env st = some st) ∧
    mainPre env = some (mainCatch env) ∧
    (mainCatch env).out.entries = none := by
  have hg : gather_json_report env.reportState = none := by
    cases hrs : env.reportState with
    | parsed acts => exact absurd hrs (h acts)
    | missing => rfl
    | unparseable => rfl
    | parsedEmpty => rfl
  have hfin : ∀ st, finalize_report_block env st = some st := by
    intro st
    unfold finalize_report_block
    rw [hg]
  exact ⟨hg, hfin, hfin (mainCatch env), mainCatch_entries_none env⟩

/-- Witness for the amended C2 at the unparseable-report environment. -/
theorem report_reconcile_empty_never_aborts_witness :
    gather_json_report envEligFail.reportState = none ∧
    finalize_report_block envEligFail {} = some {} ∧
    mainPre envEligFail = some (mainCatch envEligFail) ∧
    (mainCatch envEligFail).out.entries = none := by
  obtain ⟨a, b, c, d⟩ :=
    report_reconcile_empty_never_aborts envEligFail
      (fun _ h => ReportFileState.noConfusion h)
  exact ⟨a, b {}, c, d⟩

/-! ## C9: warning verdict on a clean run -/

theorem mainTryStage2_success (env : Env) (st1 : St)
    (hrc : env.convertRc = 0)
    (hrb : check_for_inhibitors_in_rollback env.log = .ok "") :
    (mainTryStage2 env st1).1 =
      { st1 with conversion_successful := true, rollback_errors := "" } := by
  unfold mainTryStage2
  simp only [run_convert2rhel, hrc, hrb]
  norm_num
  cases hcm : configure_host_metering env with
  | error e => rfl
  | ok u =>
    cases hui : update_insights_inventory env with
    | error e => rfl
    | ok u2 => rfl

theorem mainTry_success_state (env : Env) (d : String) (installed : Bool)
    (txid : Option String)
    (hdist : env.distroId = some d) (hds : pyStartswith d "centos" = true)
    (hver : is_eligible_releases env.versionId = true)
    (hsetup : env.setupFails = false)
    (hpre : check_convert2rhel_inhibitors_before_run env = .ok ())
    (hip : install_convert2rhel env = .ok (installed, txid))
    (hrc : env.convertRc = 0)
    (hrb : check_for_inhibitors_in_rollback env.log = .ok "") :
    (mainTry env).1 =
      { convert2rhel_installed := installed, transaction_id := txid,
        conversion_successful := true, rollback_errors := "",
        undo := if installed = true then [txid] else [], gpgKeep := false,
        repoKeep := false, out := {} } := by
  unfold mainTry
  rw [hdist]
  simp only [hds, hver, hsetup, Bool.not_true, Bool.or_self, Bool.false_eq_true,
    if_false, hpre, hip]
  rw [mainTryStage2_success env _ hrc hrb]
  simp

theorem finalize_report_warning (env : Env) (acts : List (String × Action)) (st : St)
    (hrep : env.reportState = .parsed acts)
    (hw : find_highest_report_level acts = some "WARNING")
    (hrb : st.rollback_errors = "")
    (hcs : st.conversion_successful = true) :
    finalize_report_block env st = some (warningFinalState st) := by
  have hgen : generate_report_message "WARNING" = (CONVERSION_SUCCESS_MESSAGE, false) := by
    rfl
  unfold finalize_report_block warningFinalState
  rw [hrep]
  simp only [gather_json_report, hw, hgen, hrb, hcs]
  simp

/-- C9: when the tool exits 0, no rollback errors are recorded and the
structured report's highest level is WARNING, the emitted Verdict has
status "WARNING" and `alert = false`, both required files end with
`keep = true`, the pending install transaction is gone from the undo set,
and cleanup neither touches the files nor issues any undo. -/
theorem success_warning_verdict (env : Env) (acts : List (String × Action))
    (hd : ∃ d, env.distroId = some d ∧ pyStartswith d "centos" = true)
    (hver : is_eligible_releases env.versionId = true)
    (hsetup : env.setupFails = false)
    (hpre : check_convert2rhel_inhibitors_before_run env = .ok ())
    (hinst : ∃ p, install_convert2rhel env = .ok p)
    (hrc : env.convertRc = 0)
    (hrb : check_for_inhibitors_in_rollback env.log = .ok "")
    (hrep : env.reportState = .parsed acts)
    (hw : find_highest_report_level acts = some "WARNING") :
    ∃ st, mainRun env = some st ∧
      st.out.status = "WARNING" ∧ st.out.alert = false ∧
      st.gpgKeep = true ∧ st.repoKeep = true ∧ st.undo = [] ∧
      mainVerdict env = some st.out.to_dict ∧
      st.out.to_dict.status = "WARNING" ∧ st.out.to_dict.alert = false ∧
      (∀ fs : FS, cleanup (mainRequiredFiles st) st.undo fs = some (fs, [])) := by
  obtain ⟨d, hdist, hds⟩ := hd
  obtain ⟨⟨installed, txid⟩, hip⟩ := hinst
  have hTry := mainTry_success_state env d installed txid hdist hds hver hsetup hpre
    hip hrc hrb
  obtain ⟨f1, f2, f3, f4, f5, f6, f7⟩ := mainCatch_fields env
  have hc1 : (mainCatch env).convert2rhel_installed = installed := by rw [f1, hTry]
  have hc2 : (mainCatch env).transaction_id = txid := by rw [f2, hTry]
  have hc3 : (mainCatch env).conversion_successful = true := by rw [f3, hTry]
  have hc4 : (mainCatch env).rollback_errors = "" := by rw [f4, hTry]
  have hc5 : (mainCatch env).undo = if installed = true then [txid] else [] := by
    rw [f5, hTry]
  have hfin := finalize_report_warning env acts (mainCatch env) hrep hw hc4 hc3
  have hundoF : (warningFinalState (mainCatch env)).undo = [] := by
    simp only [warningFinalState, hc1, hc2, hc5]
    by_cases hi : installed = true
    · simp [hi]
    · rw [Bool.not_eq_true] at hi
      simp [hi]
  have hcrash : cleanupCrashes (warningFinalState (mainCatch env)) = false := by
    unfold cleanupCrashes
    rw [hundoF]
    rfl
  have hrun : mainRun env = some (warningFinalState (mainCatch env)) := by
    unfold mainRun mainPre
    simp only [hfin, hcrash]
    simp
  refine ⟨warningFinalState (mainCatch env), hrun, rfl, rfl, rfl, rfl, hundoF,
    ?_, rfl, rfl, ?_⟩
  · unfold mainVerdict
    rw [hrun]
    rfl
  · intro fs
    rw [hundoF]
    rfl

/-- Witness for C9: the concrete WARNING-report environment. -/
theorem success_warning_verdict_witness :
    (mainVerdict envWarningReport).map Verdict.status = some "WARNING" ∧
    (mainVerdict envWarningReport).map Verdict.alert = some false := by
  obtain ⟨st, hrun, hs, ha, -, -, -, hv, hds, hda, -⟩ :=
    success_warning_verdict envWarningReport warningActions
      ⟨"centos linux", rfl, by decide⟩ rfl rfl rfl ⟨(false, none), rfl⟩ rfl rfl rfl
      (by decide)
  constructor
  · rw [hv]
    simp [hds]
  · rw [hv]
    simp [hda]
end ConversionScript
